import Mathlib

/-!
Shallow embedding of `src/deployer/Deployer.js` (the `Deployer` class of the
etherlime repository) and proofs of the specification claims about it.

The JavaScript class runs a linear deployment pipeline:
constructor validation → `_preValidateArguments` → `_prepareDeployTransaction`
→ `_overrideDeployTransactionConfig` → `_sendDeployTransaction`
→ `_waitForDeployTransaction` → `_getTransactionReceipt`
→ `_postValidateTransaction` → `_generateDeploymentResult`.

External effects (ethers `Contract.getDeployTransaction`,
`wallet.sendTransaction`, `provider.waitForTransaction`,
`provider.getTransactionReceipt`) are modelled as an explicit environment of
fallible functions (`ChainEnv`); the pipeline threads their results and
records a trace of submission / receipt-fetch events.
-/

set_option autoImplicit false

namespace Etherlime

/-- An ethers provider connection (opaque to the deployer; only its identity
matters for the claims). -/
structure Provider where
  id : Nat
  deriving Repr, DecidableEq, Inhabited

/-- An ethers `Wallet`: signing identity with a mutable `provider` field
(the constructor assigns `this.wallet.provider = provider`). -/
structure Wallet where
  address : String
  provider : Option Provider
  deriving Repr, DecidableEq, Inhabited

/-- A JavaScript value passed as the `wallet` constructor argument: either an
actual `ethers.Wallet` instance or any other value (`instanceof` fails). -/
inductive JSValue where
  | walletVal (w : Wallet)
  | otherVal (tag : String)
  deriving Repr, DecidableEq, Inhabited

/-- The contract artifact: `contractName`, `abi` and `bytecode` fields of the
truffle-compiled JSON object given to `deploy`. The `abi` is opaque here. -/
structure Contract where
  contractName : String
  abi : String
  bytecode : String
  deriving Repr, DecidableEq, Inhabited

/-- The unsigned deploy transaction produced by
`ethers.Contract.getDeployTransaction`: deployment `data` plus optional
`gasPrice` / `gasLimit` fields (absent = `none`, the client computes its own
default at submission time). -/
structure DeployTransaction where
  data : String
  gasPrice : Option Int
  gasLimit : Option Int
  deriving Repr, DecidableEq, Inhabited

/-- The submitted (signed, broadcast) transaction; the pipeline only reads
its chain-assigned `hash`. -/
structure SubmittedTransaction where
  hash : String
  deriving Repr, DecidableEq, Inhabited

/-- The transaction receipt: `status` (`some 0` = failure, matching the
JavaScript strict check `transactionReceipt.status === 0`), the deployed
`contractAddress` and the `transactionHash`. -/
structure TransactionReceipt where
  status : Option Int
  contractAddress : String
  transactionHash : String
  deriving Repr, DecidableEq, Inhabited

/-- The `defaultOverrides` constructor argument as a JavaScript value:
strictly `undefined` (absent), `null`, or an object whose recognized fields
`gasPrice` / `gasLimit` are either absent (`none`) or numeric. -/
inductive Overrides where
  | undef
  | null
  | obj (gasPrice : Option Int) (gasLimit : Option Int)
  deriving Repr, DecidableEq, Inhabited

/-- Errors of the pipeline, named after the spec taxonomy. `typeError` is the
JavaScript `TypeError` raised by reading a property of `null`. -/
inductive DeployError where
  | invalidIdentity
  | typeError
  | encodingError
  | submissionError
  | timeoutError
  | deploymentReverted (transactionHash : String)
  deriving Repr, DecidableEq, Inhabited

/-- The deployer object after construction: `this.wallet`, `this.provider`
and `this.defaultOverrides`. -/
structure Deployer where
  wallet : Wallet
  provider : Provider
  defaultOverrides : Overrides
  deriving Repr, DecidableEq, Inhabited

/-- Events observed at the external interface during `deploy`: one per call
to `wallet.sendTransaction` and one per call to
`provider.getTransactionReceipt`. -/
inductive Event where
  | send (tx : DeployTransaction)
  | fetchReceipt (hash : String)
  deriving Repr, DecidableEq, Inhabited

/-- JavaScript comparison `v > 0` where `v` is a possibly-absent numeric
field: `undefined > 0` is `false`, a number compares numerically. -/
def jsGtZero : Option Int → Bool
  | none => false
  | some v => decide (0 < v)

/-- `Deployer` constructor (`Deployer.js` lines 15–25): rejects a non-Wallet
identity before doing anything else, then stores the wallet and provider and
assigns `this.wallet.provider = provider`. Because `this.wallet` aliases the
caller's wallet object, the second component of the result is the caller's
wallet as it stands after construction. -/
def DeployerConstructor (walletArg : JSValue) (provider : Provider)
    (defaultOverrides : Overrides) : Except DeployError (Deployer × Wallet) :=
  match walletArg with
  | JSValue.otherVal _ => Except.error DeployError.invalidIdentity
  | JSValue.walletVal w =>
      let w2 := { w with provider := some provider }
      Except.ok ({ wallet := w2, provider := provider,
                   defaultOverrides := defaultOverrides }, w2)

/-- `_preValidateArguments` (lines 65–70): console logging only, no checks. -/
def preValidateArguments (_contract : Contract)
    (_deploymentArguments : List Int) : Unit := ()

/-- `_overrideDeployTransactionConfig` (lines 89–104), value level.
Early-returns the transaction untouched when `this.defaultOverrides ===
undefined`; reading `.gasPrice` off `null` raises a `TypeError`; otherwise
sets `gasPrice` when `defaultOverrides.gasPrice > 0`, then `gasLimit` when
`defaultOverrides.gasLimit > 0`, and returns the transaction. -/
def overrideDeployTransactionConfig (defaultOverrides : Overrides)
    (deployTransaction : DeployTransaction) :
    Except DeployError DeployTransaction :=
  match defaultOverrides with
  | Overrides.undef => Except.ok deployTransaction
  | Overrides.null => Except.error DeployError.typeError
  | Overrides.obj gasPrice gasLimit =>
      let tx1 := if jsGtZero gasPrice then
        { deployTransaction with gasPrice := gasPrice } else deployTransaction
      let tx2 := if jsGtZero gasLimit then
        { tx1 with gasLimit := gasLimit } else tx1
      Except.ok tx2

/-- `_overrideDeployTransactionConfig` again, at the object level: the
transaction lives in a heap (`List DeployTransaction`) and is passed by
reference `r`; the two assignments mutate the heap cell in place and the
function returns the reference it was given. -/
def overrideDeployTransactionConfigRef (defaultOverrides : Overrides)
    (heap : List DeployTransaction) (r : Nat) :
    Except DeployError (List DeployTransaction × Nat) :=
  match defaultOverrides with
  | Overrides.undef => Except.ok (heap, r)
  | Overrides.null => Except.error DeployError.typeError
  | Overrides.obj gasPrice gasLimit =>
      let tx := heap.getD r default
      let heap1 := if jsGtZero gasPrice then
        heap.set r { tx with gasPrice := gasPrice } else heap
      let tx1 := heap1.getD r default
      let heap2 := if jsGtZero gasLimit then
        heap1.set r { tx1 with gasLimit := gasLimit } else heap1
      Except.ok (heap2, r)

/-- `_postValidateTransaction` (lines 143–147): a receipt with
`status === 0` raises the deployment-reverted error, whose message carries
`transactionReceipt.transactionHash`. -/
def postValidateTransaction (_contract : Contract)
    (_transaction : SubmittedTransaction)
    (transactionReceipt : TransactionReceipt) : Except DeployError Unit :=
  if transactionReceipt.status = some 0 then
    Except.error (DeployError.deploymentReverted
      transactionReceipt.transactionHash)
  else
    Except.ok ()

/-- `_generateDeploymentResult` (lines 157–160): logs and returns
`transactionReceipt.contractAddress`. -/
def generateDeploymentResult (_contract : Contract)
    (_transaction : SubmittedTransaction)
    (transactionReceipt : TransactionReceipt) : String :=
  transactionReceipt.contractAddress

/-- The external services `deploy` calls into:
`getDeployTransaction` is `ethers.Contract.getDeployTransaction` (may raise
an encoding error), `sendTransaction` is `this.wallet.sendTransaction`,
`waitForTransaction` and `getTransactionReceipt` are methods of
`this.provider`. Each may fail with an error that propagates to the
caller. -/
structure ChainEnv where
  getDeployTransaction :
    Contract → List Int → Except DeployError DeployTransaction
  sendTransaction :
    DeployTransaction → Except DeployError SubmittedTransaction
  waitForTransaction : String → Except DeployError Unit
  getTransactionReceipt : String → Except DeployError TransactionReceipt

/-- The `deploy` method (lines 35–56): the linear pipeline, returning the
deployment result (or the first error) together with the trace of
send / receipt-fetch events issued to the external services. -/
def deploy (env : ChainEnv) (self : Deployer) (contract : Contract)
    (deploymentArguments : List Int) :
    Except DeployError String × List Event :=
  let _ := preValidateArguments contract deploymentArguments
  match env.getDeployTransaction contract deploymentArguments with
  | Except.error e => (Except.error e, [])
  | Except.ok deployTransaction =>
    match overrideDeployTransactionConfig self.defaultOverrides
        deployTransaction with
    | Except.error e => (Except.error e, [])
    | Except.ok configuredTransaction =>
      match env.sendTransaction configuredTransaction with
      | Except.error e => (Except.error e, [Event.send configuredTransaction])
      | Except.ok transaction =>
        match env.waitForTransaction transaction.hash with
        | Except.error e =>
            (Except.error e, [Event.send configuredTransaction])
        | Except.ok _ =>
          match env.getTransactionReceipt transaction.hash with
          | Except.error e =>
              (Except.error e, [Event.send configuredTransaction,
                                Event.fetchReceipt transaction.hash])
          | Except.ok transactionReceipt =>
            match postValidateTransaction contract transaction
                transactionReceipt with
            | Except.error e =>
                (Except.error e, [Event.send configuredTransaction,
                                  Event.fetchReceipt transaction.hash])
            | Except.ok _ =>
                (Except.ok (generateDeploymentResult contract transaction
                    transactionReceipt),
                 [Event.send configuredTransaction,
                  Event.fetchReceipt transaction.hash])

/-- Is an event a `wallet.sendTransaction` call? -/
def isSendEvent : Event → Bool
  | Event.send _ => true
  | Event.fetchReceipt _ => false

/-- Is an event a `provider.getTransactionReceipt` call? -/
def isFetchEvent : Event → Bool
  | Event.send _ => false
  | Event.fetchReceipt _ => true

/-! ### Concrete sample values, used by witnesses and counterexamples -/

/-- A sample provider connection. -/
def p0 : Provider := { id := 7 }

/-- A wallet that already points at `p0`. -/
def w0 : Wallet := { address := "0xOwner", provider := some p0 }

/-- A wallet with no provider attached yet. -/
def w1 : Wallet := { address := "0xOwner", provider := none }

/-- `w1` after `this.wallet.provider = provider` with provider `p0`. -/
def w1p : Wallet := { address := "0xOwner", provider := some p0 }

/-- A sample contract artifact. -/
def sampleContract : Contract :=
  { contractName := "Token", abi := "constructor(uint256)",
    bytecode := "0x600a" }

/-- The deploy transaction the sample environment builds. -/
def sampleDeployTx : DeployTransaction :=
  { data := "0x600a03e8", gasPrice := none, gasLimit := none }

/-- `sampleDeployTx` after a `gasPrice := 5` override. -/
def sampleDeployTx5 : DeployTransaction :=
  { data := "0x600a03e8", gasPrice := some 5, gasLimit := none }

/-- A successful receipt (`status = 1`). -/
def sampleReceipt : TransactionReceipt :=
  { status := some 1, contractAddress := "0xABC",
    transactionHash := "0xHASH" }

/-- A failure receipt (`status = 0`). -/
def revertedReceipt : TransactionReceipt :=
  { status := some 0, contractAddress := "0x0000",
    transactionHash := "0xHASH" }

/-- A deployer constructed with no overrides (`undefined`). -/
def sampleDeployer : Deployer :=
  { wallet := w0, provider := p0, defaultOverrides := Overrides.undef }

/-- A deployer constructed with `null` overrides. -/
def nullDeployer : Deployer :=
  { wallet := w0, provider := p0, defaultOverrides := Overrides.null }

/-- An environment in which every external call succeeds and the receipt
reports success at address `0xABC`. -/
def envOk : ChainEnv :=
  { getDeployTransaction := fun _ _ => Except.ok sampleDeployTx,
    sendTransaction := fun _ => Except.ok { hash := "0xHASH" },
    waitForTransaction := fun _ => Except.ok (),
    getTransactionReceipt := fun _ => Except.ok sampleReceipt }

/-- An environment in which the transaction is built but broadcasting is
rejected by the network. -/
def envSendFails : ChainEnv :=
  { getDeployTransaction := fun _ _ => Except.ok sampleDeployTx,
    sendTransaction := fun _ => Except.error DeployError.submissionError,
    waitForTransaction := fun _ => Except.ok (),
    getTransactionReceipt := fun _ => Except.ok sampleReceipt }

/-- An environment in which everything succeeds but the receipt reports
failure (`status = 0`). -/
def envReverted : ChainEnv :=
  { getDeployTransaction := fun _ _ => Except.ok sampleDeployTx,
    sendTransaction := fun _ => Except.ok { hash := "0xHASH" },
    waitForTransaction := fun _ => Except.ok (),
    getTransactionReceipt := fun _ => Except.ok revertedReceipt }

/-! ### Helper lemmas -/

/-- Closed form of the override step on an overrides object: each gas field
is replaced exactly when its override is a positive number, everything else
is carried over. -/
lemma overrideObj_eq (gasPrice gasLimit : Option Int)
    (tx : DeployTransaction) :
    overrideDeployTransactionConfig (Overrides.obj gasPrice gasLimit) tx =
      Except.ok { tx with
        gasPrice := if jsGtZero gasPrice then gasPrice else tx.gasPrice,
        gasLimit := if jsGtZero gasLimit then gasLimit else tx.gasLimit } := by
  cases tx
  simp only [overrideDeployTransactionConfig]
  by_cases hp : jsGtZero gasPrice <;> by_cases hq : jsGtZero gasLimit <;>
    simp [hp, hq]

/-- Writing back the value read from a list cell changes nothing. -/
lemma list_set_getD_self {α : Type} (l : List α) (n : Nat) (d : α) :
    l.set n (l.getD n d) = l := by
  induction l generalizing n with
  | nil => rfl
  | cons x t ih =>
    cases n with
    | zero => simp [List.getD]
    | succ m => simp [List.getD] at ih ⊢; exact ih m

/-- `list_set_getD_self` restated in the `getElem?` normal form that `simp`
produces. -/
lemma list_set_getElem?_self {α : Type} (l : List α) (n : Nat) (d : α) :
    l.set n ((l[n]?).getD d) = l := by
  have h := list_set_getD_self l n d
  rwa [List.getD_eq_getElem?_getD] at h

/-- Reading a cell just written returns the written value (in bounds). -/
lemma list_getD_set_self {α : Type} (l : List α) (n : Nat) (a d : α)
    (h : n < l.length) : (l.set n a).getD n d = a := by
  simp [List.getD, List.getElem?_set, h]

/-- `list_getD_set_self` restated in the `getElem?` normal form. -/
lemma list_getElem?_set_self {α : Type} (l : List α) (n : Nat) (a d : α)
    (h : n < l.length) : (((l.set n a)[n]?).getD d) = a := by
  simp [List.getElem?_set, h]

/-- The possible shapes of a `deploy` run: no send at all (build or override
failed, result is an error), one send and no receipt fetch (submission or
wait failed, result is an error), or exactly one send followed by exactly
one receipt fetch. -/
lemma deploy_cases (env : ChainEnv) (self : Deployer) (c : Contract)
    (args : List Int) :
    ((deploy env self c args).snd = [] ∧
      ∃ e, (deploy env self c args).fst = Except.error e) ∨
    (∃ tx2, (deploy env self c args).snd = [Event.send tx2] ∧
      ∃ e, (deploy env self c args).fst = Except.error e) ∨
    (∃ tx2 hsh, (deploy env self c args).snd =
      [Event.send tx2, Event.fetchReceipt hsh]) := by
  rcases h1 : env.getDeployTransaction c args with e | tx
  · exact Or.inl ⟨by simp only [deploy, h1], e, by simp only [deploy, h1]⟩
  rcases h2 : overrideDeployTransactionConfig self.defaultOverrides tx
    with e | tx2
  · exact Or.inl ⟨by simp only [deploy, h1, h2], e,
      by simp only [deploy, h1, h2]⟩
  rcases h3 : env.sendTransaction tx2 with e | t
  · exact Or.inr (Or.inl ⟨tx2, by simp only [deploy, h1, h2, h3], e,
      by simp only [deploy, h1, h2, h3]⟩)
  rcases h4 : env.waitForTransaction t.hash with e | u
  · exact Or.inr (Or.inl ⟨tx2, by simp only [deploy, h1, h2, h3, h4], e,
      by simp only [deploy, h1, h2, h3, h4]⟩)
  rcases h5 : env.getTransactionReceipt t.hash with e | r
  · exact Or.inr (Or.inr ⟨tx2, t.hash,
      by simp only [deploy, h1, h2, h3, h4, h5]⟩)
  rcases h6 : postValidateTransaction c t r with e | u2
  · exact Or.inr (Or.inr ⟨tx2, t.hash,
      by simp only [deploy, h1, h2, h3, h4, h5, h6]⟩)
  · exact Or.inr (Or.inr ⟨tx2, t.hash,
      by simp only [deploy, h1, h2, h3, h4, h5, h6]⟩)

/-- The reference-level override step agrees with the value-level one: it
overwrites the heap cell `r` with the value-level result and hands back the
same reference. -/
lemma overrideRef_eq_pure (ov : Overrides) (heap : List DeployTransaction)
    (r : Nat) (hr : r < heap.length) :
    overrideDeployTransactionConfigRef ov heap r =
      (overrideDeployTransactionConfig ov (heap.getD r default)).map
        (fun tx => (heap.set r tx, r)) := by
  cases ov with
  | undef =>
      simp only [overrideDeployTransactionConfigRef,
        overrideDeployTransactionConfig, Except.map, list_set_getD_self]
  | null => rfl
  | obj gp gl =>
      simp only [overrideDeployTransactionConfigRef,
        overrideDeployTransactionConfig, Except.map]
      by_cases hp : jsGtZero gp <;> by_cases hq : jsGtZero gl <;>
        simp [hp, hq, list_getElem?_set_self _ _ _ _ hr, List.set_set,
          list_set_getElem?_self]

/-- The value-level override step is idempotent on its successful results. -/
lemma override_pure_idem (ov : Overrides) (tx tx2 : DeployTransaction)
    (h : overrideDeployTransactionConfig ov tx = Except.ok tx2) :
    overrideDeployTransactionConfig ov tx2 = Except.ok tx2 := by
  cases ov with
  | undef => rfl
  | null => simp [overrideDeployTransactionConfig] at h
  | obj gp gl =>
      rw [overrideObj_eq] at h ⊢
      injection h with h
      subst h
      cases tx
      by_cases hp : jsGtZero gp <;> by_cases hq : jsGtZero gl <;>
        simp [hp, hq]

/-! ### Claim theorems -/

/-- C1: a `deploy` call whose external steps all succeed and whose receipt
status is not failure returns exactly the contract address reported in the
transaction receipt as its deployment result. -/
theorem deploy_success_returns_receipt_address (env : ChainEnv)
    (self : Deployer) (c : Contract) (args : List Int)
    (tx tx2 : DeployTransaction) (t : SubmittedTransaction)
    (r : TransactionReceipt)
    (h1 : env.getDeployTransaction c args = Except.ok tx)
    (h2 : overrideDeployTransactionConfig self.defaultOverrides tx =
      Except.ok tx2)
    (h3 : env.sendTransaction tx2 = Except.ok t)
    (h4 : env.waitForTransaction t.hash = Except.ok ())
    (h5 : env.getTransactionReceipt t.hash = Except.ok r)
    (h6 : r.status ≠ some 0) :
    (deploy env self c args).fst = Except.ok r.contractAddress := by
  simp only [deploy, h1, h2, h3, h4, h5, postValidateTransaction, if_neg h6,
    generateDeploymentResult]

/-- Witness for C1 at a concrete all-successful environment. -/
theorem deploy_success_returns_receipt_address_witness :
    envOk.getDeployTransaction sampleContract [] = Except.ok sampleDeployTx ∧
    overrideDeployTransactionConfig sampleDeployer.defaultOverrides
      sampleDeployTx = Except.ok sampleDeployTx ∧
    envOk.sendTransaction sampleDeployTx = Except.ok { hash := "0xHASH" } ∧
    envOk.waitForTransaction (SubmittedTransaction.mk "0xHASH").hash =
      Except.ok () ∧
    envOk.getTransactionReceipt (SubmittedTransaction.mk "0xHASH").hash =
      Except.ok sampleReceipt ∧
    sampleReceipt.status ≠ some 0 ∧
    (deploy envOk sampleDeployer sampleContract []).fst =
      Except.ok sampleReceipt.contractAddress :=
  ⟨rfl, rfl, rfl, rfl, rfl, by decide,
    deploy_success_returns_receipt_address envOk sampleDeployer
      sampleContract [] sampleDeployTx sampleDeployTx ⟨"0xHASH"⟩
      sampleReceipt rfl rfl rfl rfl rfl (by decide)⟩

/-- C2: a non-positive `gasPrice` override leaves the transaction's gasPrice
field after the apply-overrides step exactly as it was before the step, and
likewise a non-positive `gasLimit` override leaves the gasLimit field. -/
theorem override_nonpositive_preserves_defaults (tx : DeployTransaction)
    (gp gl : Int) (op ol : Option Int) (hgp : gp ≤ 0) (hgl : gl ≤ 0) :
    (∃ tx2, overrideDeployTransactionConfig (Overrides.obj (some gp) ol) tx =
        Except.ok tx2 ∧ tx2.gasPrice = tx.gasPrice) ∧
    (∃ tx2, overrideDeployTransactionConfig (Overrides.obj op (some gl)) tx =
        Except.ok tx2 ∧ tx2.gasLimit = tx.gasLimit) := by
  constructor
  · refine ⟨_, overrideObj_eq (some gp) ol tx, ?_⟩
    simp [jsGtZero, not_lt.mpr hgp]
  · refine ⟨_, overrideObj_eq op (some gl) tx, ?_⟩
    simp [jsGtZero, not_lt.mpr hgl]

/-- Witness for C2 at gasPrice override `0` and gasLimit override `-1`. -/
theorem override_nonpositive_preserves_defaults_witness :
    (0 : Int) ≤ 0 ∧ (-1 : Int) ≤ 0 ∧
    ((∃ tx2, overrideDeployTransactionConfig (Overrides.obj (some 0) none)
        sampleDeployTx = Except.ok tx2 ∧
        tx2.gasPrice = sampleDeployTx.gasPrice) ∧
     (∃ tx2, overrideDeployTransactionConfig
        (Overrides.obj (some 5) (some (-1))) sampleDeployTx =
        Except.ok tx2 ∧ tx2.gasLimit = sampleDeployTx.gasLimit)) :=
  ⟨by decide, by decide,
    override_nonpositive_preserves_defaults sampleDeployTx 0 (-1) (some 5)
      none (by decide) (by decide)⟩

/-- C3: with overrides absent (strictly undefined), the override step
returns the built transaction untouched, so the transaction passed to
submission is exactly the transaction the build step produced. -/
theorem deploy_absent_overrides_no_mutation (env : ChainEnv)
    (self : Deployer) (c : Contract) (args : List Int)
    (tx : DeployTransaction)
    (hov : self.defaultOverrides = Overrides.undef)
    (hp : env.getDeployTransaction c args = Except.ok tx) :
    overrideDeployTransactionConfig self.defaultOverrides tx =
      Except.ok tx ∧
    ∃ rest, (deploy env self c args).snd = Event.send tx :: rest := by
  have ho : overrideDeployTransactionConfig self.defaultOverrides tx =
      Except.ok tx := by rw [hov]; rfl
  refine ⟨ho, ?_⟩
  rcases h3 : env.sendTransaction tx with e | t
  · exact ⟨[], by simp only [deploy, hp, ho, h3]⟩
  rcases h4 : env.waitForTransaction t.hash with e | u
  · exact ⟨[], by simp only [deploy, hp, ho, h3, h4]⟩
  rcases h5 : env.getTransactionReceipt t.hash with e | r
  · exact ⟨[Event.fetchReceipt t.hash],
      by simp only [deploy, hp, ho, h3, h4, h5]⟩
  rcases h6 : postValidateTransaction c t r with e | u2
  · exact ⟨[Event.fetchReceipt t.hash],
      by simp only [deploy, hp, ho, h3, h4, h5, h6]⟩
  · exact ⟨[Event.fetchReceipt t.hash],
      by simp only [deploy, hp, ho, h3, h4, h5, h6]⟩

/-- Witness for C3 at a concrete environment and a deployer constructed
without overrides. -/
theorem deploy_absent_overrides_no_mutation_witness :
    sampleDeployer.defaultOverrides = Overrides.undef ∧
    envOk.getDeployTransaction sampleContract [] = Except.ok sampleDeployTx ∧
    (overrideDeployTransactionConfig sampleDeployer.defaultOverrides
        sampleDeployTx = Except.ok sampleDeployTx ∧
      ∃ rest, (deploy envOk sampleDeployer sampleContract []).snd =
        Event.send sampleDeployTx :: rest) :=
  ⟨rfl, rfl, deploy_absent_overrides_no_mutation envOk sampleDeployer
    sampleContract [] sampleDeployTx rfl rfl⟩

/-- C4: when the fetched receipt's status indicates failure (`status = 0`),
`deploy` fails with the deployment-reverted error carrying the receipt's
transaction hash and never returns a deployment result. -/
theorem deploy_reverted_receipt_fails (env : ChainEnv) (self : Deployer)
    (c : Contract) (args : List Int) (tx tx2 : DeployTransaction)
    (t : SubmittedTransaction) (r : TransactionReceipt)
    (h1 : env.getDeployTransaction c args = Except.ok tx)
    (h2 : overrideDeployTransactionConfig self.defaultOverrides tx =
      Except.ok tx2)
    (h3 : env.sendTransaction tx2 = Except.ok t)
    (h4 : env.waitForTransaction t.hash = Except.ok ())
    (h5 : env.getTransactionReceipt t.hash = Except.ok r)
    (h6 : r.status = some 0) :
    (deploy env self c args).fst =
      Except.error (DeployError.deploymentReverted r.transactionHash) ∧
    ∀ a, (deploy env self c args).fst ≠ Except.ok a := by
  have hpost : postValidateTransaction c t r =
      Except.error (DeployError.deploymentReverted r.transactionHash) := by
    simp [postValidateTransaction, h6]
  have hfst : (deploy env self c args).fst =
      Except.error (DeployError.deploymentReverted r.transactionHash) := by
    simp only [deploy, h1, h2, h3, h4, h5, hpost]
  exact ⟨hfst, fun a ha => by rw [hfst] at ha; exact Except.noConfusion ha⟩

/-- Witness for C4 at a concrete environment whose receipt reports
failure. -/
theorem deploy_reverted_receipt_fails_witness :
    envReverted.getDeployTransaction sampleContract [] =
      Except.ok sampleDeployTx ∧
    overrideDeployTransactionConfig sampleDeployer.defaultOverrides
      sampleDeployTx = Except.ok sampleDeployTx ∧
    envReverted.sendTransaction sampleDeployTx =
      Except.ok { hash := "0xHASH" } ∧
    envReverted.waitForTransaction (SubmittedTransaction.mk "0xHASH").hash =
      Except.ok () ∧
    envReverted.getTransactionReceipt
      (SubmittedTransaction.mk "0xHASH").hash = Except.ok revertedReceipt ∧
    revertedReceipt.status = some 0 ∧
    ((deploy envReverted sampleDeployer sampleContract []).fst =
      Except.error (DeployError.deploymentReverted
        revertedReceipt.transactionHash) ∧
     ∀ a, (deploy envReverted sampleDeployer sampleContract []).fst ≠
       Except.ok a) :=
  ⟨rfl, rfl, rfl, rfl, rfl, rfl,
    deploy_reverted_receipt_fails envReverted sampleDeployer sampleContract
      [] sampleDeployTx sampleDeployTx ⟨"0xHASH"⟩ revertedReceipt rfl rfl rfl
      rfl rfl rfl⟩

/-- C5: constructing the deployer with any value that is not an ethers
Wallet instance fails with the invalid-identity error. The constructor is a
plain function of its arguments with no access to the chain environment, so
the failure occurs before any network interaction. -/
theorem constructor_non_wallet_invalid_identity (v : JSValue) (p : Provider)
    (ov : Overrides) (h : ∀ w, v ≠ JSValue.walletVal w) :
    DeployerConstructor v p ov =
      Except.error DeployError.invalidIdentity := by
  cases v with
  | walletVal w => exact absurd rfl (h w)
  | otherVal s => rfl

/-- Witness for C5 at a concrete non-credential value. -/
theorem constructor_non_wallet_invalid_identity_witness :
    (∀ w, JSValue.otherVal "not-a-wallet" ≠ JSValue.walletVal w) ∧
    DeployerConstructor (JSValue.otherVal "not-a-wallet") p0
      Overrides.undef = Except.error DeployError.invalidIdentity :=
  ⟨fun _ h => JSValue.noConfusion h,
    constructor_non_wallet_invalid_identity
      (JSValue.otherVal "not-a-wallet") p0 Overrides.undef
      (fun _ h => JSValue.noConfusion h)⟩

/-- C6: applying an overrides object sets gasPrice exactly when the
override is positive and gasLimit exactly when its override is positive —
the two checks independent of each other (each result field depends only on
its own override) — and every other transaction field passes through
unchanged. -/
theorem override_sets_fields_exactly_when_positive (gp gl : Option Int)
    (tx : DeployTransaction) :
    overrideDeployTransactionConfig (Overrides.obj gp gl) tx =
      Except.ok { tx with
        gasPrice := if jsGtZero gp then gp else tx.gasPrice,
        gasLimit := if jsGtZero gl then gl else tx.gasLimit } ∧
    ∀ tx2, overrideDeployTransactionConfig (Overrides.obj gp gl) tx =
      Except.ok tx2 → tx2.data = tx.data := by
  refine ⟨overrideObj_eq gp gl tx, ?_⟩
  intro tx2 h
  rw [overrideObj_eq] at h
  injection h with h
  subst h
  rfl

/-- Witness for C6 at the spec's end-to-end scenario overrides
(`gasPrice = 5`, `gasLimit = 0`). -/
theorem override_sets_fields_exactly_when_positive_witness :
    overrideDeployTransactionConfig (Overrides.obj (some 5) (some 0))
      sampleDeployTx = Except.ok { sampleDeployTx with
        gasPrice := if jsGtZero (some 5) then some 5
          else sampleDeployTx.gasPrice,
        gasLimit := if jsGtZero (some 0) then some 0
          else sampleDeployTx.gasLimit } ∧
    ∀ tx2, overrideDeployTransactionConfig (Overrides.obj (some 5) (some 0))
      sampleDeployTx = Except.ok tx2 → tx2.data = sampleDeployTx.data :=
  override_sets_fields_exactly_when_positive (some 5) (some 0) sampleDeployTx

/-- C7 (amended): each `deploy` invocation calls the send-transaction
operation at most once and fetches at most one receipt, so no retry or
re-submission ever occurs; when the invocation returns a deployment result
it has made exactly one submission and exactly one receipt fetch. -/
theorem deploy_at_most_one_send_one_fetch (env : ChainEnv) (self : Deployer)
    (c : Contract) (args : List Int) :
    (deploy env self c args).snd.countP isSendEvent ≤ 1 ∧
    (deploy env self c args).snd.countP isFetchEvent ≤ 1 ∧
    ∀ a, (deploy env self c args).fst = Except.ok a →
      ((deploy env self c args).snd.countP isSendEvent = 1 ∧
       (deploy env self c args).snd.countP isFetchEvent = 1) := by
  rcases deploy_cases env self c args with ⟨hnil, e, herr⟩ |
    ⟨tx2, hsnd, e, herr⟩ | ⟨tx2, hsh, hsnd⟩
  · rw [hnil]
    refine ⟨by simp, by simp, fun a ha => ?_⟩
    rw [herr] at ha
    exact absurd ha (by simp)
  · rw [hsnd]
    refine ⟨?_, ?_, fun a ha => ?_⟩
    · simp [List.countP_cons, List.countP_nil, isSendEvent]
    · simp [List.countP_cons, List.countP_nil, isFetchEvent]
    · rw [herr] at ha
      exact absurd ha (by simp)
  · rw [hsnd]
    refine ⟨?_, ?_, fun a ha => ⟨?_, ?_⟩⟩ <;>
      simp [List.countP_cons, List.countP_nil, isSendEvent, isFetchEvent]

/-- Witness for C7's amended statement at a concrete environment. -/
theorem deploy_at_most_one_send_one_fetch_witness :
    (deploy envOk sampleDeployer sampleContract []).snd.countP
      isSendEvent ≤ 1 ∧
    (deploy envOk sampleDeployer sampleContract []).snd.countP
      isFetchEvent ≤ 1 ∧
    ∀ a, (deploy envOk sampleDeployer sampleContract []).fst =
      Except.ok a →
      ((deploy envOk sampleDeployer sampleContract []).snd.countP
        isSendEvent = 1 ∧
       (deploy envOk sampleDeployer sampleContract []).snd.countP
        isFetchEvent = 1) :=
  deploy_at_most_one_send_one_fetch envOk sampleDeployer sampleContract []

/-- C7 counterexample: when broadcasting is rejected the `deploy`
invocation fails having fetched no transaction receipt at all, so it is not
the case that exactly one receipt is fetched whether the call succeeds or
fails. -/
theorem deploy_single_fetch_counterexample :
    (deploy envSendFails sampleDeployer sampleContract []).fst =
      Except.error DeployError.submissionError ∧
    (deploy envSendFails sampleDeployer sampleContract []).snd.countP
      isFetchEvent = 0 ∧
    ¬ ((deploy envSendFails sampleDeployer sampleContract []).snd.countP
      isFetchEvent = 1) :=
  ⟨rfl, rfl, by decide⟩

/-- C8 (amended): successful construction assigns the supplied provider to
the caller-supplied wallet's provider field — afterwards the wallet's
provider equals the supplied provider and the deployer's stored wallet is
that same wallet — so the wallet is changed by construction whenever its
provider field previously differed from the supplied provider. -/
theorem constructor_assigns_wallet_provider (w : Wallet) (p : Provider)
    (ov : Overrides) (d : Deployer) (w2 : Wallet)
    (h : DeployerConstructor (JSValue.walletVal w) p ov =
      Except.ok (d, w2)) :
    w2.provider = some p ∧ d.wallet = w2 ∧
    (w.provider ≠ some p → w2 ≠ w) := by
  simp only [DeployerConstructor] at h
  injection h with h
  injection h with hd hw
  subst hd
  subst hw
  refine ⟨rfl, rfl, fun hne heq => hne ?_⟩
  exact (congrArg Wallet.provider heq).symm

/-- Witness for C8's amended statement: a wallet with no provider attached
gets the supplied provider assigned. -/
theorem constructor_assigns_wallet_provider_witness :
    DeployerConstructor (JSValue.walletVal w1) p0 Overrides.undef =
      Except.ok ({ wallet := w1p, provider := p0,
                   defaultOverrides := Overrides.undef }, w1p) ∧
    (w1p.provider = some p0 ∧
     ({ wallet := w1p, provider := p0,
        defaultOverrides := Overrides.undef } : Deployer).wallet = w1p ∧
     (w1.provider ≠ some p0 → w1p ≠ w1)) :=
  ⟨rfl, constructor_assigns_wallet_provider w1 p0 Overrides.undef
    { wallet := w1p, provider := p0, defaultOverrides := Overrides.undef }
    w1p rfl⟩

/-- C8 counterexample: a wallet whose provider already equals the supplied
provider is left entirely unchanged by construction, so construction does
not always leave the wallet changed. -/
theorem constructor_wallet_unchanged_counterexample :
    (DeployerConstructor (JSValue.walletVal w0) p0 Overrides.undef).map
      Prod.snd = Except.ok w0 := rfl

/-- C9: overrides count as absent only when strictly undefined — a `null`
overrides value makes the apply-overrides step raise a type error, so
`deploy` fails right there with nothing submitted, while an overrides
object with no recognized positive fields still goes through the step and
comes back unchanged. -/
theorem override_null_vs_empty_object (env : ChainEnv) (self : Deployer)
    (c : Contract) (args : List Int) (tx txAny : DeployTransaction)
    (hov : self.defaultOverrides = Overrides.null)
    (hp : env.getDeployTransaction c args = Except.ok tx) :
    overrideDeployTransactionConfig Overrides.null txAny =
      Except.error DeployError.typeError ∧
    overrideDeployTransactionConfig (Overrides.obj none none) txAny =
      Except.ok txAny ∧
    deploy env self c args = (Except.error DeployError.typeError, []) := by
  refine ⟨rfl, rfl, ?_⟩
  have ho : overrideDeployTransactionConfig self.defaultOverrides tx =
      Except.error DeployError.typeError := by rw [hov]; rfl
  simp only [deploy, hp, ho]

/-- Witness for C9 at a deployer constructed with `null` overrides. -/
theorem override_null_vs_empty_object_witness :
    nullDeployer.defaultOverrides = Overrides.null ∧
    envOk.getDeployTransaction sampleContract [] =
      Except.ok sampleDeployTx ∧
    (overrideDeployTransactionConfig Overrides.null sampleDeployTx =
      Except.error DeployError.typeError ∧
     overrideDeployTransactionConfig (Overrides.obj none none)
      sampleDeployTx = Except.ok sampleDeployTx ∧
     deploy envOk nullDeployer sampleContract [] =
      (Except.error DeployError.typeError, [])) :=
  ⟨rfl, rfl, override_null_vs_empty_object envOk nullDeployer sampleContract
    [] sampleDeployTx sampleDeployTx rfl rfl⟩

/-- C10: the apply-overrides step mutates the transaction object in place
and hands back the very reference it was given, and it is idempotent:
running it again on its own result changes neither the heap nor the
reference. -/
theorem override_same_object_and_idempotent (ov : Overrides)
    (heap h2 : List DeployTransaction) (r r2 : Nat)
    (hr : r < heap.length)
    (hok : overrideDeployTransactionConfigRef ov heap r =
      Except.ok (h2, r2)) :
    r2 = r ∧
    overrideDeployTransactionConfigRef ov h2 r = Except.ok (h2, r) := by
  rw [overrideRef_eq_pure ov heap r hr] at hok
  rcases hpure : overrideDeployTransactionConfig ov (heap.getD r default)
    with e | tx2
  · rw [hpure] at hok
    exact absurd hok (by simp [Except.map])
  rw [hpure] at hok
  simp only [Except.map] at hok
  injection hok with hok
  injection hok with hh hr2
  subst hh
  refine ⟨hr2.symm, ?_⟩
  have hlen : r < (heap.set r tx2).length := by rwa [List.length_set]
  rw [overrideRef_eq_pure ov (heap.set r tx2) r hlen,
    list_getD_set_self heap r tx2 default hr,
    override_pure_idem ov (heap.getD r default) tx2 hpure]
  simp only [Except.map, List.set_set]

/-- Witness for C10: a positive gasPrice override applied through a
one-cell heap. -/
theorem override_same_object_and_idempotent_witness :
    0 < ([sampleDeployTx] : List DeployTransaction).length ∧
    overrideDeployTransactionConfigRef (Overrides.obj (some 5) none)
      [sampleDeployTx] 0 = Except.ok ([sampleDeployTx5], 0) ∧
    ((0 : Nat) = 0 ∧
     overrideDeployTransactionConfigRef (Overrides.obj (some 5) none)
       [sampleDeployTx5] 0 = Except.ok ([sampleDeployTx5], 0)) :=
  ⟨by decide, rfl,
    override_same_object_and_idempotent (Overrides.obj (some 5) none)
      [sampleDeployTx] [sampleDeployTx5] 0 0 (by decide) rfl⟩

end Etherlime
